import Mathlib

/-!
# Verification of the Martin content script (`src/extension/dist_v2/content.js`)

Shallow embedding of the content script's state and event handlers.

Modelling conventions:
* JS strings are `List Char`; JS string truthiness (`!text`) is emptiness.
* `String.prototype.replace` with a string pattern replaces the leftmost
  occurrence of the pattern (here the pattern and replacement are treated as
  literal text; suggestion strings contain no `$`-patterns).
* The single-threaded event loop is modelled by a `step` function over timed
  events: debounce-timer fires, fetch settlements, user actions and the
  MutationObserver callback.  `step` returns `none` when the event is not
  enabled (e.g. a timer fire with no pending timer), and otherwise the new
  state together with the network request issued by that step, if any.
* Display-only data (the metrics panel, which only feeds `innerHTML`) is not
  part of the state; `Suggestion` keeps the fields the content script reads
  (`type`, `original`, `suggested`, `explanation`).  Wire-only numeric fields
  (confidence, token_delta, position) are never read by `content.js` and are
  omitted.
-/

/-- `const DEBOUNCE_DELAY = 500;` -/
def DEBOUNCE_DELAY : Nat := 500

/-- Leftmost-occurrence substring test: `pat` occurs contiguously in `s`
(the condition under which JS `s.replace(pat, rep)` changes `s`). -/
def occursInChars : List Char → List Char → Bool
  | pat, [] => pat.isEmpty
  | pat, c :: cs => pat.isPrefixOf (c :: cs) || occursInChars pat cs

/-- JS `s.replace(pat, rep)` for literal string arguments: replace the
leftmost occurrence of `pat` in `s` by `rep`; if `pat` does not occur,
return `s` unchanged.  An empty pattern matches at position 0. -/
def replaceFirst (pat rep : List Char) : List Char → List Char
  | [] => if pat.isPrefixOf ([] : List Char) then rep ++ List.drop pat.length [] else []
  | c :: cs =>
    if pat.isPrefixOf (c :: cs) then rep ++ List.drop pat.length (c :: cs)
    else c :: replaceFirst pat rep cs

/-- One suggestion, with the fields `content.js` reads from the wire object. -/
structure Suggestion where
  type : String
  original : List Char
  suggested : List Char
  explanation : String
  deriving Repr, DecidableEq

/-- The analysis response fields the content script stores
(`result.optimized_prompt`, `result.suggestions`); the metrics block is
display-only and not part of the state. -/
structure AnalysisResult where
  optimized_prompt : List Char
  suggestions : List Suggestion
  deriving Repr, DecidableEq

/-- The monitored input element: its text content and whether it is still
attached to the document (`document.body.contains(el)`). -/
structure Textarea where
  value : List Char
  attached : Bool
  deriving Repr, DecidableEq

/-- Visual state of the floating button: the CSS class set by
`updateMartinButton` (`'analyzing' | 'suggestions' | 'optimized'`,
anything else leaving the plain `martin-button` class). -/
inductive BtnState where
  | default
  | analyzing
  | hasSuggestions
  | optimized
  deriving Repr, DecidableEq

/-- The content script's module-level mutable state plus the two timers it
creates (`debounce`'s `timeout` and `acceptAllSuggestions`' reset timeout)
and a counter of synthetic `input` events dispatched. -/
structure MartinState where
  currentTextarea : Option Textarea
  suggestions : List Suggestion
  isAnalyzing : Bool
  optimizedPrompt : List Char
  button : BtnState
  badge : Nat
  badgeShown : Bool
  cardOpen : Bool
  /-- the debounce timer: absolute fire time and the captured `text` argument -/
  pending : Option (Nat × List Char)
  /-- the outstanding fetch payload, if a request is in flight -/
  inFlight : Option (List Char)
  /-- the `acceptAllSuggestions` 2-second reset timer's absolute fire time -/
  resetAt : Option Nat
  /-- number of synthetic `input` events dispatched so far -/
  dispatched : Nat
  deriving Repr, DecidableEq

/-- `updateMartinButton(state)` from `content.js`: sets the button class and
shows/hides the badge (badge text is the current suggestion count). -/
def updateMartinButton (b : BtnState) (s : MartinState) : MartinState :=
  match b with
  | .analyzing => { s with button := .analyzing, badgeShown := false }
  | .hasSuggestions =>
      { s with button := .hasSuggestions, badge := s.suggestions.length, badgeShown := true }
  | .optimized => { s with button := .optimized, badgeShown := false }
  | .default => { s with button := .default, badgeShown := false }

/-- `window.applySuggestion = function(index) {...}`: if the monitored element
reference is non-null and `suggestions[index]` is defined, replace the first
occurrence of the suggestion's original text in the element's value,
dispatch a synthetic input event, splice the suggestion out of the list,
update the button, and re-render or close the card. -/
def applySuggestion (index : Nat) (s : MartinState) : MartinState :=
  match s.currentTextarea, s.suggestions[index]? with
  | some ta, some sg =>
      let text := replaceFirst sg.original sg.suggested ta.value
      let s1 : MartinState :=
        { s with
          currentTextarea := some { ta with value := text },
          dispatched := s.dispatched + 1,
          suggestions := s.suggestions.eraseIdx index }
      let s2 := updateMartinButton
        (if s1.suggestions.length > 0 then .hasSuggestions else .default) s1
      if s1.suggestions.length > 0 then { s2 with cardOpen := true }
      else { s2 with cardOpen := false }
  | _, _ => s

/-- `window.acceptAllSuggestions = function() {...}` at absolute time `now`:
if the monitored element reference is non-null and `optimizedPrompt` is
non-empty (JS truthiness), overwrite the element's value with the optimized
prompt, dispatch a synthetic input event, close the card, set the button to
`optimized`, and schedule the reset to `default` 2000 ms later.
The suggestion list is not touched. -/
def acceptAllSuggestions (now : Nat) (s : MartinState) : MartinState :=
  match s.currentTextarea with
  | some ta =>
      if s.optimizedPrompt = [] then s
      else
        let s1 : MartinState :=
          { s with
            currentTextarea := some { ta with value := s.optimizedPrompt },
            dispatched := s.dispatched + 1,
            cardOpen := false }
        let s2 := updateMartinButton .optimized s1
        { s2 with resetAt := some (now + 2000) }
  | none => s

/-- `findAndMonitorTextarea()`: `doc` abstracts the first element matched by
the ordered selector list, if any.  On success the global `currentTextarea`
is reassigned; on failure the state (including any stale reference) is left
untouched and `false` is returned. -/
def findAndMonitorTextarea (doc : Option Textarea) (s : MartinState) : MartinState × Bool :=
  match doc with
  | some el => ({ s with currentTextarea := some el }, true)
  | none => (s, false)

/-- The events of the single-threaded event loop. -/
inductive Ev where
  /-- an `input` event on the monitored element: the element's value becomes
  `text` and the input listener calls the debounced `analyzeText(text)` -/
  | userInput (text : List Char)
  /-- a `focus` event on the monitored element -/
  | focus
  /-- the debounce timer fires: runs the async body of `analyzeText` up to
  the `await`, issuing the fetch when the guards pass -/
  | timerFire
  /-- the in-flight fetch settles: `r = none` models a network/HTTP/parse
  failure (`analyzePrompt` returned `null`), `r = some result` a 200 response -/
  | respond (r : Option AnalysisResult)
  /-- the 2-second reset timeout from `acceptAllSuggestions` fires -/
  | resetFire
  /-- the Accept All button (`acceptAllSuggestions`) -/
  | acceptAll
  /-- a click on suggestion `i` (`applySuggestion(i)`) -/
  | applyIdx (i : Nat)
  /-- a click on the floating martin button -/
  | click
  /-- the MutationObserver callback; `doc` abstracts what
  `findAndMonitorTextarea` would currently find -/
  | observe (doc : Option Textarea)
  deriving Repr, DecidableEq

/-- One step of the event loop at absolute time `now`.  Returns `none` when
the event is not enabled in state `s` (timer not due, no fetch outstanding,
no monitored element for an element event); otherwise the successor state
and the network request payload issued during the step, if any. -/
def step (now : Nat) (e : Ev) (s : MartinState) : Option (MartinState × Option (List Char)) :=
  match e with
  | .userInput text =>
      match s.currentTextarea with
      | some ta =>
          -- the element's value changed to `text`; the listener invokes the
          -- debounced `analyzeText(text)`, which clears any pending timer and
          -- schedules a new one `DEBOUNCE_DELAY` ms out with `text` captured
          some ({ s with
                    currentTextarea := some { ta with value := text },
                    pending := some (now + DEBOUNCE_DELAY, text) }, none)
      | none => none
  | .focus =>
      match s.currentTextarea with
      | some ta =>
          -- `if (text && text.length > 10) analyzeText(text);`
          if ta.value ≠ [] ∧ ta.value.length > 10 then
            some ({ s with pending := some (now + DEBOUNCE_DELAY, ta.value) }, none)
          else some (s, none)
      | none => none
  | .timerFire =>
      match s.pending with
      | some (ft, text) =>
          if ft = now then
            -- `if (isAnalyzing || !text || text.length < 10) return;`
            if s.isAnalyzing ∨ text = [] ∨ text.length < 10 then
              some ({ s with pending := none }, none)
            else
              -- `isAnalyzing = true; updateMartinButton('analyzing');`
              -- then `analyzePrompt(text)` issues the fetch
              let s1 := updateMartinButton .analyzing
                { s with pending := none, isAnalyzing := true }
              some ({ s1 with inFlight := some text }, some text)
          else none
      | none => none
  | .respond r =>
      match s.inFlight with
      | some _ =>
          let s1 : MartinState := { s with inFlight := none }
          match r with
          | some result =>
              -- `suggestions = result.suggestions; optimizedPrompt = result.optimized_prompt;`
              let s2 : MartinState :=
                { s1 with
                  suggestions := result.suggestions,
                  optimizedPrompt := result.optimized_prompt }
              let s3 := updateMartinButton
                (if s2.suggestions.length > 0 then .hasSuggestions else .optimized) s2
              some ({ s3 with isAnalyzing := false }, none)
          | none =>
              -- failure: `updateMartinButton('default')`, stale data kept
              let s2 := updateMartinButton .default s1
              some ({ s2 with isAnalyzing := false }, none)
      | none => none
  | .resetFire =>
      match s.resetAt with
      | some t =>
          if t = now then
            some (updateMartinButton .default { s with resetAt := none }, none)
          else none
      | none => none
  | .acceptAll => some (acceptAllSuggestions now s, none)
  | .applyIdx i => some (applySuggestion i s, none)
  | .click =>
      -- `if (suggestions.length > 0 || optimizedPrompt) { showSuggestions(); }`
      if s.suggestions.length > 0 ∨ s.optimizedPrompt ≠ [] then
        some ({ s with cardOpen := true }, none)
      else
        match s.currentTextarea with
        | some ta =>
            -- `if (text && text.length > 10) analyzeText(text);`
            if ta.value ≠ [] ∧ ta.value.length > 10 then
              some ({ s with pending := some (now + DEBOUNCE_DELAY, ta.value) }, none)
            else some (s, none)
        | none => some (s, none)
  | .observe doc =>
      -- `if (!currentTextarea || !document.body.contains(currentTextarea)) findAndMonitorTextarea();`
      match s.currentTextarea with
      | some ta =>
          if ta.attached then some (s, none)
          else some ((findAndMonitorTextarea doc s).1, none)
      | none => some ((findAndMonitorTextarea doc s).1, none)

/-- Run a timed event list through `step`, collecting the network requests
issued, failing if any event is not enabled. -/
def run : List (Nat × Ev) → MartinState → Option (MartinState × List (List Char))
  | [], s => some (s, [])
  | (t, e) :: rest, s =>
      match step t e s with
      | some (s1, c) =>
          match run rest s1 with
          | some (s2, cs) => some (s2, c.toList ++ cs)
          | none => none
      | none => none

/-! ## Helper lemmas -/

theorem occursInChars_cons_eq_false {pat : List Char} {c : Char} {cs : List Char}
    (h : occursInChars pat (c :: cs) = false) :
    pat.isPrefixOf (c :: cs) = false ∧ occursInChars pat cs = false := by
  simpa [occursInChars] using h

/-- If the pattern does not occur in the text, JS `replace` leaves it unchanged. -/
theorem replaceFirst_of_not_occurs (pat rep : List Char) :
    ∀ s : List Char, occursInChars pat s = false → replaceFirst pat rep s = s := by
  intro s
  induction s with
  | nil =>
      intro h
      cases pat with
      | nil => simp [occursInChars] at h
      | cons p ps => simp [replaceFirst, List.isPrefixOf]
  | cons c cs ih =>
      intro h
      obtain ⟨h1, h2⟩ := occursInChars_cons_eq_false h
      simp [replaceFirst, h1, ih h2]

/-- Baseline module-level state of the content script right after load, with a
given monitored element: `suggestions = []`, `isAnalyzing = false`,
`optimizedPrompt = ''`, no timers, nothing in flight. -/
def initState (ta : Option Textarea) : MartinState :=
  { currentTextarea := ta
    suggestions := []
    isAnalyzing := false
    optimizedPrompt := []
    button := .default
    badge := 0
    badgeShown := false
    cardOpen := false
    pending := none
    inFlight := none
    resetAt := none
    dispatched := 0 }

/-! ## C7: applying suggestion `i` removes exactly entry `i` -/

/-- C7 (confirmed): with a non-null monitored element reference and a valid
index `i` into the active suggestion sequence, `applySuggestion i` removes
exactly the entry at `i` and keeps every other entry in its original
relative order (the remaining sequence is `take i ++ drop (i+1)`). -/
theorem C7_apply_removes_exactly_index (s : MartinState) (ta : Textarea) (i : Nat)
    (hta : s.currentTextarea = some ta) (hi : i < s.suggestions.length) :
    (applySuggestion i s).suggestions = s.suggestions.take i ++ s.suggestions.drop (i + 1) := by
  have hget : s.suggestions[i]? = some s.suggestions[i] := List.getElem?_eq_getElem hi
  rw [← List.eraseIdx_eq_take_drop_succ]
  unfold applySuggestion
  rw [hta, hget]
  dsimp only
  split <;> simp [updateMartinButton]

/-- C7 witness. -/
theorem C7_witness :
    (applySuggestion 1 { initState (some { value := "abcdefghijkl".toList, attached := true }) with
        suggestions := [{ type := "grammar", original := "ab".toList, suggested := "AB".toList,
                          explanation := "caps" },
                        { type := "clarity", original := "cd".toList, suggested := "CD".toList,
                          explanation := "caps" },
                        { type := "structure", original := "ef".toList, suggested := "EF".toList,
                          explanation := "caps" }] }).suggestions =
      [{ type := "grammar", original := "ab".toList, suggested := "AB".toList,
         explanation := "caps" },
       { type := "structure", original := "ef".toList, suggested := "EF".toList,
         explanation := "caps" }] := by
  have h := C7_apply_removes_exactly_index
    { initState (some { value := "abcdefghijkl".toList, attached := true }) with
        suggestions := [{ type := "grammar", original := "ab".toList, suggested := "AB".toList,
                          explanation := "caps" },
                        { type := "clarity", original := "cd".toList, suggested := "CD".toList,
                          explanation := "caps" },
                        { type := "structure", original := "ef".toList, suggested := "EF".toList,
                          explanation := "caps" }] }
    { value := "abcdefghijkl".toList, attached := true } 1 rfl (by decide)
  simpa using h

/-! ## C8: applying a suggestion whose original text is absent -/

/-- C8 (confirmed): applying a suggestion whose original text does not occur
in the monitored element's current content leaves the content unchanged
(the element reference, value included, is exactly as before) and still
removes that suggestion from the active sequence. -/
theorem C8_absent_original_noop_but_removes (s : MartinState) (ta : Textarea) (i : Nat)
    (sg : Suggestion) (hta : s.currentTextarea = some ta)
    (hsg : s.suggestions[i]? = some sg)
    (habs : occursInChars sg.original ta.value = false) :
    (applySuggestion i s).currentTextarea = some ta ∧
      (applySuggestion i s).suggestions = s.suggestions.eraseIdx i := by
  have hrepl : replaceFirst sg.original sg.suggested ta.value = ta.value :=
    replaceFirst_of_not_occurs _ _ _ habs
  unfold applySuggestion
  rw [hta, hsg]
  dsimp only
  rw [hrepl]
  split <;> simp [updateMartinButton]

/-- C8 witness. -/
theorem C8_witness :
    (applySuggestion 0 { initState (some { value := "hello world out there".toList, attached := true }) with
        suggestions := [{ type := "clarity", original := "goodbye".toList,
                          suggested := "farewell".toList, explanation := "gone" }] }).currentTextarea =
      some { value := "hello world out there".toList, attached := true } ∧
    (applySuggestion 0 { initState (some { value := "hello world out there".toList, attached := true }) with
        suggestions := [{ type := "clarity", original := "goodbye".toList,
                          suggested := "farewell".toList, explanation := "gone" }] }).suggestions =
      ([{ type := "clarity", original := "goodbye".toList,
          suggested := "farewell".toList, explanation := "gone" }] : List Suggestion).eraseIdx 0 :=
  C8_absent_original_noop_but_removes _
    { value := "hello world out there".toList, attached := true } 0
    { type := "clarity", original := "goodbye".toList,
      suggested := "farewell".toList, explanation := "gone" }
    rfl rfl (by decide)

/-! ## C5: input shorter than 10 characters is a no-op -/

/-- C5 (confirmed): for any input text shorter than 10 characters, the
debounced analyzer run (the `input` event followed by its debounce-timer
fire) issues no network request, and the only state change is the element's
own new value and the now-cleared timer: suggestions, optimized prompt,
button, badge, card, in-flight status, dispatched count are all unchanged. -/
theorem C5_short_text_no_call_no_ui_change (s : MartinState) (ta : Textarea)
    (text : List Char) (t : Nat)
    (hta : s.currentTextarea = some ta) (hlen : text.length < 10) :
    run [(t, Ev.userInput text), (t + DEBOUNCE_DELAY, Ev.timerFire)] s =
      some ({ s with currentTextarea := some { ta with value := text },
                     pending := none }, []) := by
  simp [run, step, hta, hlen]

/-- C5 witness. -/
theorem C5_witness :
    run [(7, Ev.userInput "short".toList), (7 + DEBOUNCE_DELAY, Ev.timerFire)]
        (initState (some { value := [], attached := true })) =
      some ({ initState (some { value := [], attached := true }) with
                currentTextarea := some { value := "short".toList, attached := true },
                pending := none }, []) :=
  C5_short_text_no_call_no_ui_change _ { value := [], attached := true }
    "short".toList 7 rfl (by decide)

/-! ## C1: accept all -/

/-- A concrete pre-state for exercising `acceptAllSuggestions`: one active
suggestion and a non-empty optimized prompt. -/
def c1state : MartinState :=
  { initState (some { value := "write me some code pls".toList, attached := true }) with
    suggestions := [{ type := "clarity", original := "pls".toList,
                      suggested := "please".toList, explanation := "spell it out" }],
    optimizedPrompt := "Write clean, well-documented code, please.".toList }

/-- C1 counterexample: starting from a state with one active suggestion and a
non-empty optimized prompt, `acceptAllSuggestions` does replace the content
with the optimized text, but the active suggestion sequence is NOT empty
afterwards — `content.js` never clears `suggestions` in
`acceptAllSuggestions`, so the claim's "the active suggestion sequence is
empty" is false. -/
theorem C1_counterexample :
    (acceptAllSuggestions 0 c1state).currentTextarea =
        some { value := "Write clean, well-documented code, please.".toList, attached := true } ∧
      (acceptAllSuggestions 0 c1state).suggestions =
        [{ type := "clarity", original := "pls".toList,
           suggested := "please".toList, explanation := "spell it out" }] := by
  constructor <;> rfl

/-- C1 (amended): after "accept all" with a non-null monitored element and a
non-empty optimized prompt, the element's content equals the stored
optimized text exactly and one synthetic input event is dispatched, but the
active suggestion sequence is left exactly as it was (it is not cleared). -/
theorem C1_accept_all_amended (s : MartinState) (ta : Textarea) (now : Nat)
    (hta : s.currentTextarea = some ta) (hopt : s.optimizedPrompt ≠ []) :
    (acceptAllSuggestions now s).currentTextarea =
        some { ta with value := s.optimizedPrompt } ∧
      (acceptAllSuggestions now s).dispatched = s.dispatched + 1 ∧
      (acceptAllSuggestions now s).suggestions = s.suggestions := by
  unfold acceptAllSuggestions
  rw [hta]
  simp [hopt, updateMartinButton]

/-- C1 witness. -/
theorem C1_witness :
    (acceptAllSuggestions 3 c1state).currentTextarea =
        some { value := "Write clean, well-documented code, please.".toList, attached := true } ∧
      (acceptAllSuggestions 3 c1state).dispatched = c1state.dispatched + 1 ∧
      (acceptAllSuggestions 3 c1state).suggestions = c1state.suggestions := by
  have h := C1_accept_all_amended c1state
    { value := "write me some code pls".toList, attached := true } 3 rfl (by decide)
  simpa using h

/-! ## C3: floating-button click with no suggestions / no optimized result -/

/-- A concrete idle state with a monitored element holding sufficient text
(longer than 10 characters) and nothing analyzed yet. -/
def c3state : MartinState :=
  initState (some { value := "please refactor this function".toList, attached := true })

/-- C3 counterexample: clicking the floating button in an idle state with
sufficient text does NOT trigger the analysis immediately — the click step
issues no network request; it only schedules the ordinary debounce timer
`DEBOUNCE_DELAY` (500 ms) in the future, because the handler calls the
debounced `analyzeText`.  The claimed "bypassing the 500 ms debounce wait"
is false. -/
theorem C3_counterexample :
    (step 1000 Ev.click c3state).map (fun p => (p.2, p.1.pending)) =
      some (none, some (1000 + DEBOUNCE_DELAY,
        "please refactor this function".toList)) := by
  rfl

/-- C3 (amended): clicking the floating button when no suggestions and no
optimized result exist, with a monitored element whose text is longer than
10 characters, triggers a manual analysis through the same debounced path:
no request is issued at click time; instead the debounce timer is scheduled
`DEBOUNCE_DELAY` ms out with the element's text (and the in-flight guard is
applied when that timer fires, as usual). -/
theorem C3_click_schedules_debounced (s : MartinState) (ta : Textarea) (now : Nat)
    (hs : s.suggestions = []) (ho : s.optimizedPrompt = [])
    (hta : s.currentTextarea = some ta) (hlen : 10 < ta.value.length) :
    step now Ev.click s =
      some ({ s with pending := some (now + DEBOUNCE_DELAY, ta.value) }, none) := by
  have hne : ta.value ≠ [] := by
    intro h
    rw [h] at hlen
    simp at hlen
  simp [step, hs, ho, hta, hne, hlen]

/-- C3 witness. -/
theorem C3_witness :
    step 1000 Ev.click c3state =
      some ({ c3state with pending := some (1000 + DEBOUNCE_DELAY,
        "please refactor this function".toList) }, none) :=
  C3_click_schedules_debounced c3state
    { value := "please refactor this function".toList, attached := true }
    1000 rfl rfl rfl (by decide)

/-! ## C9: revalidation before mutation -/

/-- A concrete state whose monitored element reference has been detached from
the document, with one applicable suggestion. -/
def c9state : MartinState :=
  { initState (some { value := "use  a better variable name".toList, attached := false }) with
    suggestions := [{ type := "grammar", original := "use ".toList,
                      suggested := "choose ".toList, explanation := "verb" }] }

/-- C9 counterexample: the monitored element is detached
(`document.body.contains` is false) and the MutationObserver callback runs
but rediscovery finds no replacement element, so the stale reference
remains; the subsequent `applySuggestion(0)` still mutates the detached
element (its value changes and a synthetic input event is dispatched).  The
claimed "no mutation is performed on a reference that has been detached"
is false: `applySuggestion`/`acceptAllSuggestions` only null-check the
reference, they never revalidate attachment. -/
theorem C9_counterexample :
    (run [(0, Ev.observe none), (1, Ev.applyIdx 0)] c9state).map
        (fun p => (p.1.currentTextarea, p.1.dispatched)) =
      some (some { value := "choose  a better variable name".toList, attached := false }, 1) := by
  rfl

/-- Force the attachment flag of the monitored element reference, leaving
everything else in the state alone. -/
def setAttached (b : Bool) (s : MartinState) : MartinState :=
  { s with currentTextarea := s.currentTextarea.map (fun ta => { ta with attached := b }) }

/-- C9 (amended): before mutating, `applySuggestion` and
`acceptAllSuggestions` check only that the monitored element reference is
non-null; attachment to the document is never consulted, so both mutation
paths behave identically whatever the attachment status of the reference
(they commute with forcing the attached flag to any value), and a detached
but non-null reference is still mutated.  Reattachment is only attempted
asynchronously by the MutationObserver callback, which keeps the stale
reference when discovery finds nothing. -/
theorem C9_mutation_checks_only_nullity (s : MartinState) (i now : Nat) (b : Bool) :
    (s.currentTextarea = none →
        applySuggestion i s = s ∧ acceptAllSuggestions now s = s) ∧
      applySuggestion i (setAttached b s) = setAttached b (applySuggestion i s) ∧
      acceptAllSuggestions now (setAttached b s) = setAttached b (acceptAllSuggestions now s) := by
  refine ⟨fun hnone => ?_, ?_, ?_⟩
  · simp [applySuggestion, acceptAllSuggestions, hnone]
  · cases hta : s.currentTextarea with
    | none =>
        simp [applySuggestion, setAttached, hta]
    | some ta =>
        cases hsg : s.suggestions[i]? with
        | none =>
            simp [applySuggestion, setAttached, hta, hsg]
        | some sg =>
            have h1 : (setAttached b s).currentTextarea = some { ta with attached := b } := by
              simp [setAttached, hta]
            have h2 : (setAttached b s).suggestions[i]? = some sg := hsg
            unfold applySuggestion
            rw [h1, h2, hta, hsg]
            dsimp only
            by_cases hc : 0 < (s.suggestions.eraseIdx i).length <;>
              simp [hc, updateMartinButton, setAttached]
  · cases hta : s.currentTextarea with
    | none =>
        simp [acceptAllSuggestions, setAttached, hta]
    | some ta =>
        by_cases hopt : s.optimizedPrompt = []
        · simp [acceptAllSuggestions, setAttached, hta, hopt]
        · have h1 : (setAttached b s).currentTextarea = some { ta with attached := b } := by
            simp [setAttached, hta]
          unfold acceptAllSuggestions
          rw [h1, hta]
          simp [hopt, updateMartinButton, setAttached]

/-- C9 witness. -/
theorem C9_witness :
    (c9state.currentTextarea = none →
        applySuggestion 0 c9state = c9state ∧ acceptAllSuggestions 5 c9state = c9state) ∧
      applySuggestion 0 (setAttached true c9state) = setAttached true (applySuggestion 0 c9state) ∧
      acceptAllSuggestions 5 (setAttached true c9state) =
        setAttached true (acceptAllSuggestions 5 c9state) :=
  C9_mutation_checks_only_nullity c9state 0 5 true

/-! ## C10: the length-10 boundary -/

/-- C10 (confirmed): for monitored-element text of length exactly 10, the
`input` event schedules the debounced analysis and the resulting timer fire
does issue the request (the debounced path skips only texts shorter than
10); but the `focus` handler and the floating-button click handler both
require length strictly greater than 10, so at length 10 each leaves the
state unchanged and triggers nothing. -/
theorem C10_length_ten_boundary (s : MartinState) (ta : Textarea) (now : Nat)
    (hta : s.currentTextarea = some ta) (hlen : ta.value.length = 10)
    (hs : s.suggestions = []) (ho : s.optimizedPrompt = [])
    (hA : s.isAnalyzing = false) :
    (step now (Ev.userInput ta.value) s =
        some ({ s with currentTextarea := some ta,
                       pending := some (now + DEBOUNCE_DELAY, ta.value) }, none)) ∧
      ((step (now + DEBOUNCE_DELAY) Ev.timerFire
          { s with pending := some (now + DEBOUNCE_DELAY, ta.value) }).map (fun p => p.2) =
        some (some ta.value)) ∧
      (step now Ev.focus s = some (s, none)) ∧
      (step now Ev.click s = some (s, none)) := by
  have hne : ta.value ≠ [] := by
    intro h
    rw [h] at hlen
    simp at hlen
  have hguard : ¬ (s.isAnalyzing ∨ ta.value = [] ∨ ta.value.length < 10) := by
    simp [hA, hne, hlen]
  refine ⟨?_, ?_, ?_, ?_⟩
  · simp [step, hta]
  · simp [step, hguard]
  · simp [step, hta, hlen]
  · simp [step, hs, ho, hta, hlen]

/-- C10 witness. -/
theorem C10_witness :
    (step 50 (Ev.userInput "abcdefghij".toList)
        (initState (some { value := "abcdefghij".toList, attached := true })) =
      some ({ initState (some { value := "abcdefghij".toList, attached := true }) with
                currentTextarea := some { value := "abcdefghij".toList, attached := true },
                pending := some (50 + DEBOUNCE_DELAY, "abcdefghij".toList) }, none)) ∧
      ((step (50 + DEBOUNCE_DELAY) Ev.timerFire
          { initState (some { value := "abcdefghij".toList, attached := true }) with
              pending := some (50 + DEBOUNCE_DELAY, "abcdefghij".toList) }).map (fun p => p.2) =
        some (some "abcdefghij".toList)) ∧
      (step 50 Ev.focus (initState (some { value := "abcdefghij".toList, attached := true })) =
        some (initState (some { value := "abcdefghij".toList, attached := true }), none)) ∧
      (step 50 Ev.click (initState (some { value := "abcdefghij".toList, attached := true })) =
        some (initState (some { value := "abcdefghij".toList, attached := true }), none)) :=
  C10_length_ten_boundary
    (initState (some { value := "abcdefghij".toList, attached := true }))
    { value := "abcdefghij".toList, attached := true } 50 rfl (by decide) rfl rfl rfl

/-! ## C2: behaviour when the debounce timer fires during an in-flight call -/

def c2text1 : List Char := "first prompt version".toList

def c2text2 : List Char := "second prompt version".toList

/-- A response carrying no suggestions, used to settle the in-flight call. -/
def c2result : AnalysisResult :=
  { optimized_prompt := "Optimized.".toList, suggestions := [] }

def c2state : MartinState := initState (some { value := [], attached := true })

/-- C2 counterexample: the first text is typed and its timer fires, putting a
call in flight; the second text is typed while the call is in flight and its
timer fires before the response arrives.  The fire during the in-flight call
silently drops the second text (no call, timer cleared, nothing
rescheduled); after the response settles, no timer and no flight remain, so
the second invocation's text is never sent — the claimed "waits for the
in-flight call to finish and then schedules the next call, so that the text
of every invocation ... is eventually sent" is false.  Only the first text
was ever sent. -/
theorem C2_counterexample :
    (run [(0, Ev.userInput c2text1), (500, Ev.timerFire),
          (600, Ev.userInput c2text2), (1100, Ev.timerFire),
          (1200, Ev.respond (some c2result))] c2state).map
        (fun p => (p.2, p.1.pending, p.1.inFlight, p.1.isAnalyzing)) =
      some ([c2text1], none, none, false) := by
  rfl

/-- C2 (amended): when the debounce timer fires while a call is in flight
(`isAnalyzing`), the captured text is silently dropped — the timer is
cleared, no request is issued and nothing is rescheduled; and a request is
only ever issued by a step starting from a state with `isAnalyzing = false`,
the issuing step marking it in flight, so at most one request is
outstanding at any time. -/
theorem C2_inflight_drop_single_outstanding (now : Nat) (s : MartinState)
    (text : List Char) (hp : s.pending = some (now, text))
    (hbusy : s.isAnalyzing = true) :
    (step now Ev.timerFire s = some ({ s with pending := none }, none)) ∧
      ∀ (t : Nat) (e : Ev) (s1 s2 : MartinState) (c : List Char),
        step t e s1 = some (s2, some c) →
          s1.isAnalyzing = false ∧ s2.isAnalyzing = true ∧ s2.inFlight = some c := by
  constructor
  · simp [step, hp, hbusy]
  · intro t e s1 s2 c h
    cases e with
    | userInput text' =>
        cases hta : s1.currentTextarea <;> simp [step, hta] at h
    | focus =>
        cases hta : s1.currentTextarea with
        | none => simp [step, hta] at h
        | some ta =>
            by_cases hcond : ta.value ≠ [] ∧ ta.value.length > 10 <;>
              simp [step, hta, hcond] at h
    | timerFire =>
        cases hp1 : s1.pending with
        | none => simp [step, hp1] at h
        | some p =>
            obtain ⟨ft, txt⟩ := p
            by_cases hft : ft = t
            · by_cases hguard : s1.isAnalyzing = true ∨ txt = [] ∨ txt.length < 10
              · simp [step, hp1, hft, hguard] at h
              · simp [step, hp1, hft, hguard] at h
                obtain ⟨hs2, hc⟩ := h
                have hA : s1.isAnalyzing = false := by
                  simp only [not_or] at hguard
                  simpa using hguard.1
                refine ⟨hA, ?_, ?_⟩
                · rw [← hs2]
                  simp [updateMartinButton]
                · rw [← hs2, ← hc]
            · simp [step, hp1, hft] at h
    | respond r =>
        cases hin : s1.inFlight with
        | none => simp [step, hin] at h
        | some q => cases r <;> simp [step, hin] at h
    | resetFire =>
        cases hr : s1.resetAt with
        | none => simp [step, hr] at h
        | some rt =>
            by_cases hrt : rt = t <;> simp [step, hr, hrt] at h
    | acceptAll => simp [step] at h
    | applyIdx i => simp [step] at h
    | click =>
        by_cases hcond : s1.suggestions.length > 0 ∨ s1.optimizedPrompt ≠ []
        · simp [step, hcond] at h
        · cases hta : s1.currentTextarea with
          | none => simp [step, hcond, hta] at h
          | some ta =>
              by_cases hcond2 : ta.value ≠ [] ∧ ta.value.length > 10 <;>
                simp [step, hcond, hta, hcond2] at h
    | observe doc =>
        cases hta : s1.currentTextarea with
        | none => cases doc <;> simp [step, hta, findAndMonitorTextarea] at h
        | some ta =>
            by_cases hatt : ta.attached = true
            · simp [step, hta, hatt] at h
            · cases doc <;> simp [step, hta, hatt, findAndMonitorTextarea] at h

/-- C2 witness: the drop conjunct at a concrete in-flight state. -/
theorem C2_witness :
    step 900 Ev.timerFire
        { c2state with pending := some (900, c2text2), isAnalyzing := true,
                       inFlight := some c2text1 } =
      some ({ c2state with pending := none, isAnalyzing := true,
                           inFlight := some c2text1 }, none) :=
  (C2_inflight_drop_single_outstanding 900
    { c2state with pending := some (900, c2text2), isAnalyzing := true,
                   inFlight := some c2text1 } c2text2 rfl rfl).1

/-! ## C4: the `optimized` state and the 2-second reset -/

/-- A zero-suggestion analysis response. -/
def c4result : AnalysisResult :=
  { optimized_prompt := "Do the thing, but better.".toList, suggestions := [] }

def c4state : MartinState := initState (some { value := [], attached := true })

/-- C4 counterexample: an analysis that returns zero suggestions puts the
button into `optimized`, but no reset timer exists afterwards (`resetAt`
and `pending` are both `none`) — `analyzeText` never schedules the
2-second return to default; only `acceptAllSuggestions` does.  The claimed
"whenever it enters `optimized` it transitions back to `idle` after 2
seconds" is false for the zero-suggestions path. -/
theorem C4_counterexample :
    (run [(0, Ev.userInput "analyze this text now".toList), (500, Ev.timerFire),
          (900, Ev.respond (some c4result))] c4state).map
        (fun p => (p.1.button, p.1.resetAt, p.1.pending)) =
      some (BtnState.optimized, none, none) := by
  rfl

/-- C4 (amended): only the accept-all path schedules the 2-second return to
default: `acceptAllSuggestions` at time `now` enters `optimized` with a
reset timer at `now + 2000`, and when a reset timer fires the button
returns to default; but a response with zero suggestions enters `optimized`
while leaving the reset timer exactly as it was (none is scheduled). -/
theorem C4_reset_only_from_accept_all (now now2 : Nat) (s s2 : MartinState)
    (ta : Textarea) (res : AnalysisResult) (q : List Char)
    (hta : s.currentTextarea = some ta) (hopt : s.optimizedPrompt ≠ [])
    (hin : s2.inFlight = some q) (hres : res.suggestions = []) :
    ((acceptAllSuggestions now s).button = BtnState.optimized ∧
       (acceptAllSuggestions now s).resetAt = some (now + 2000)) ∧
      (∀ (t : Nat) (s1 : MartinState), s1.resetAt = some t →
          step t Ev.resetFire s1 =
            some (updateMartinButton BtnState.default { s1 with resetAt := none }, none)) ∧
      ((step now2 (Ev.respond (some res)) s2).map
          (fun p => (p.1.button, p.1.resetAt, p.2)) =
        some (BtnState.optimized, s2.resetAt, none)) := by
  refine ⟨?_, ?_, ?_⟩
  · unfold acceptAllSuggestions
    rw [hta]
    simp [hopt, updateMartinButton]
  · intro t s1 h1
    simp [step, h1]
  · simp [step, hin, hres, updateMartinButton]

/-- C4 witness. -/
theorem C4_witness :
    ((acceptAllSuggestions 10 c1state).button = BtnState.optimized ∧
       (acceptAllSuggestions 10 c1state).resetAt = some (10 + 2000)) ∧
      ((step 40 (Ev.respond (some c4result))
          { c4state with inFlight := some "analyze this text now".toList,
                         isAnalyzing := true }).map
          (fun p => (p.1.button, p.1.resetAt, p.2)) =
        some (BtnState.optimized,
          ({ c4state with inFlight := some "analyze this text now".toList,
                          isAnalyzing := true } : MartinState).resetAt, none)) := by
  have h := C4_reset_only_from_accept_all 10 40 c1state
    { c4state with inFlight := some "analyze this text now".toList, isAnalyzing := true }
    { value := "write me some code pls".toList, attached := true }
    c4result "analyze this text now".toList rfl (by decide) rfl rfl
  exact ⟨h.1, h.2.2⟩

/-! ## C6: trailing debounce sends exactly the last text -/

/-- The timed `input`-event trace corresponding to a sequence of debounced
`analyzeText` invocations. -/
def invokeTrace (inputs : List (Nat × List Char)) : List (Nat × Ev) :=
  inputs.map (fun p => (p.1, Ev.userInput p.2))

theorem run_append (l1 l2 : List (Nat × Ev)) (s : MartinState) :
    run (l1 ++ l2) s =
      match run l1 s with
      | some (s1, cs) =>
          match run l2 s1 with
          | some (s2, cs2) => some (s2, cs ++ cs2)
          | none => none
      | none => none := by
  induction l1 generalizing s with
  | nil =>
      cases h2 : run l2 s with
      | none => simp [run, h2]
      | some p2 => simp [run, h2]
  | cons hd tl ih =>
      obtain ⟨t, e⟩ := hd
      cases hstep : step t e s with
      | none => simp [run, hstep]
      | some p =>
          obtain ⟨s1, c⟩ := p
          cases h1 : run tl s1 with
          | none =>
              cases h2 : run (tl ++ l2) s1 with
              | none => simp [run, hstep, h1, h2]
              | some p2 =>
                  have := ih s1
                  rw [h1] at this
                  rw [h2] at this
                  simp at this
          | some p1 =>
              obtain ⟨sm, cs⟩ := p1
              have hsplit := ih s1
              rw [h1] at hsplit
              cases h2 : run l2 sm with
              | none =>
                  simp only [h2] at hsplit
                  simp [run, hstep, hsplit, h1, h2]
              | some p2 =>
                  obtain ⟨sf, cs2⟩ := p2
                  simp only [h2] at hsplit
                  simp [run, hstep, hsplit, h1, h2, List.append_assoc]

/-- Feeding a non-empty burst of `input` events through the debouncer: no
request is issued, and afterwards the element holds the last text and the
only pending timer is the last invocation's, `DEBOUNCE_DELAY` out. -/
theorem run_invokeTrace (inputs : List (Nat × List Char)) (tN : Nat) (xN : List Char) :
    ∀ (s : MartinState) (ta : Textarea), s.currentTextarea = some ta →
      run (invokeTrace (inputs ++ [(tN, xN)])) s =
        some ({ s with currentTextarea := some { ta with value := xN },
                       pending := some (tN + DEBOUNCE_DELAY, xN) }, []) := by
  induction inputs with
  | nil =>
      intro s ta hta
      simp [invokeTrace, run, step, hta]
  | cons hd tl ih =>
      intro s ta hta
      obtain ⟨t0, x0⟩ := hd
      have hstep : step t0 (Ev.userInput x0) s =
          some ({ s with currentTextarea := some { ta with value := x0 },
                         pending := some (t0 + DEBOUNCE_DELAY, x0) }, none) := by
        simp [step, hta]
      have hrec := ih { s with currentTextarea := some { ta with value := x0 },
                               pending := some (t0 + DEBOUNCE_DELAY, x0) }
        { ta with value := x0 } rfl
      show run ((t0, Ev.userInput x0) :: invokeTrace (tl ++ [(tN, xN)])) s = _
      simp only [run, hstep]
      rw [hrec]
      simp

/-- C6 (confirmed): for a burst of debounced-analyzer invocations in which
each invocation arrives strictly within `DEBOUNCE_DELAY` (500 ms) of the
previous one, starting with no call in flight, running the burst followed
by the single surviving debounce-timer fire issues exactly one network
request, whose payload is the text of the last invocation (provided that
last text meets the 10-character minimum); that request is then the one in
flight. -/
theorem C6_burst_sends_exactly_last_text (rest : List (Nat × List Char)) (tN : Nat)
    (xN : List Char) (s : MartinState) (ta : Textarea)
    (hgap : List.Chain' (fun a b => a.1 < b.1 ∧ b.1 < a.1 + DEBOUNCE_DELAY)
      (rest ++ [(tN, xN)]))
    (hlen : 10 ≤ xN.length)
    (hta : s.currentTextarea = some ta) (hA : s.isAnalyzing = false)
    (hF : s.inFlight = none) :
    (run (invokeTrace (rest ++ [(tN, xN)]) ++ [(tN + DEBOUNCE_DELAY, Ev.timerFire)]) s).map
        (fun p => (p.2, p.1.inFlight)) = some ([xN], some xN) := by
  rw [run_append, run_invokeTrace rest tN xN s ta hta]
  have hne : xN ≠ [] := by
    intro h
    rw [h] at hlen
    simp at hlen
  have hnlt : ¬ xN.length < 10 := Nat.not_lt.mpr hlen
  simp [run, step, hA, hne, hnlt, updateMartinButton]

/-- C6 witness: two invocations 300 ms apart, the second long enough. -/
theorem C6_witness :
    (run (invokeTrace ([(0, "hello ther".toList)] ++ [(300, "hello there my friend".toList)]) ++
          [(300 + DEBOUNCE_DELAY, Ev.timerFire)])
        (initState (some { value := [], attached := true }))).map
        (fun p => (p.2, p.1.inFlight)) =
      some ([("hello there my friend".toList)], some ("hello there my friend".toList)) :=
  C6_burst_sends_exactly_last_text [(0, "hello ther".toList)] 300
    "hello there my friend".toList (initState (some { value := [], attached := true }))
    { value := [], attached := true }
    (by
      rw [List.singleton_append]
      exact List.chain'_pair.mpr ⟨by norm_num, by norm_num [DEBOUNCE_DELAY]⟩)
    (by decide) rfl rfl rfl
